import Mathlib

/-!
# Verification of the MeeShip image-optimization & shipping-cost pipeline

Shallow embedding of the core pipeline of this repository:
* `backend/app/services/image_optimizer.py` — already-optimized gate,
  segmentation fallbacks, crop/recompose/sharpen wiring, size-targeting
  compressor, shipping-cost estimator;
* `backend/app/services/shipping_variant_generator.py` — background
  sampler, the five-variant generator, per-variant JPEG encoder.

Pure numeric code is translated directly (Python floats become `ℚ`,
integer division stays `Nat` division).  Raster primitives that live in
external libraries (OpenCV decode/resize/filter, GrabCut, KMeans, PIL
save) are abstract parameters of the embedding: the control flow that the
repository itself contains is concrete, and theorems quantify over the
abstract primitives.
-/

namespace MeeShip

/-! ## Shipping-cost estimator (`_predict_cost`, image_optimizer.py lines 332–361) -/

/-- Result record of `_predict_cost` (the Python dict returned at lines 356–361). -/
structure CostFields where
  actual_weight_g : ℚ
  volumetric_weight_g : ℚ
  billable_weight_g : ℚ
  shipping_cost_inr : Nat
deriving DecidableEq

/-- Python's `x or y` on an optional float: `None`, `0` and `0.0` are falsy
and yield `y`; every other number yields `x` itself. -/
def pyOrWeight (a : Option ℚ) (b : ℚ) : ℚ :=
  match a with
  | none => b
  | some x => if x = 0 then b else x

/-- `_predict_cost(width, height, actual_weight_g)`: pixel dimensions are
converted at 20 cm / 1200 px, depth fixed at 2 cm, volumetric weight is
`(W*H*D)/5000`, billable weight is `max(actual_weight_g or volumetric, volumetric)`,
and the Meesho tier table maps billable weight to a cost. -/
def predict_cost (width height : Nat) (actual_weight_g : Option ℚ) : CostFields :=
  let px_to_cm : ℚ := 20 / 1200
  let W : ℚ := width * px_to_cm
  let H : ℚ := height * px_to_cm
  let D : ℚ := 2
  let volumetric_weight : ℚ := (W * H * D) / 5000
  let billable_weight : ℚ := max (pyOrWeight actual_weight_g volumetric_weight) volumetric_weight
  let cost : Nat :=
    if billable_weight ≤ 500 then 45
    else if billable_weight ≤ 1000 then 65
    else if billable_weight ≤ 2000 then 85
    else 110
  { actual_weight_g := pyOrWeight actual_weight_g volumetric_weight
    volumetric_weight_g := volumetric_weight
    billable_weight_g := billable_weight
    shipping_cost_inr := cost }

/-! ## Background sampler (`_detect_dominant_background_color`,
shipping_variant_generator.py lines 56–82) -/

/-- A PIL image as the sampler sees it: a size and a pixel accessor
(`img.getpixel((x, y))` returning an RGB triple). -/
structure RGBImage where
  w : Nat
  h : Nat
  px : Nat → Nat → Nat × Nat × Nat

/-- Python `range(0, stop, step)` for `step ≥ 1`. -/
def rangeStep (stop step : Nat) : List Nat :=
  (List.range ((stop + step - 1) / step)).map (fun i => i * step)

/-- `_detect_dominant_background_color`: sample the four edges with stride
`max 1 (dim / 20)`, average the sampled pixels with integer division; the
white default is only returned when no edge pixel was sampled. -/
def detect_dominant_background_color (img : RGBImage) : Nat × Nat × Nat :=
  let xs := rangeStep img.w (max 1 (img.w / 20))
  let ys := rangeStep img.h (max 1 (img.h / 20))
  let edge_pixels : List (Nat × Nat × Nat) :=
    (xs.flatMap (fun x => [img.px x 0, img.px x (img.h - 1)])) ++
    (ys.flatMap (fun y => [img.px 0 y, img.px (img.w - 1) y]))
  if edge_pixels.isEmpty then (255, 255, 255)
  else
    let n := edge_pixels.length
    ((edge_pixels.map (fun p => p.1)).sum / n,
     (edge_pixels.map (fun p => p.2.1)).sum / n,
     (edge_pixels.map (fun p => p.2.2)).sum / n)

/-- A concrete all-black 1×1 image. -/
def black1x1 : RGBImage := ⟨1, 1, fun _ _ => (0, 0, 0)⟩

/-- A concrete 1×1 image with pixel `(7, 8, 9)`. -/
def oddPixel1x1 : RGBImage := ⟨1, 1, fun _ _ => (7, 8, 9)⟩

/-! ## Main pipeline (`optimize_image`, image_optimizer.py lines 15–134) -/

/-- A decoded OpenCV image: its dimensions and the grayscale (luma) values
of its pixels as `cv2.cvtColor(_, COLOR_BGR2GRAY)` would produce them
(`gray.size = w * h` for well-formed images). -/
structure CVImage where
  w : Nat
  h : Nat
  gray : List Nat
deriving DecidableEq

/-- `is_already_optimized(image, image_bytes)` (lines 141–153): true iff the
byte size is strictly below 200 KB, the canvas is exactly 1200×1200, and the
fraction of pixels with luma strictly above 240 is strictly greater than 0.6
(`white_ratio > 0.6`, rationally `5 * count > 3 * size`). -/
def is_already_optimized (img : CVImage) (byteLen : Nat) : Bool :=
  if byteLen < 200 * 1024 ∧ img.h = 1200 ∧ img.w = 1200 then
    decide (3 * img.gray.length < 5 * img.gray.countP (fun p => decide (240 < p)))
  else
    false

/-- The raster primitives the pipeline calls into OpenCV / scikit-learn /
PIL for, abstracted over an arbitrary mask representation `M`.  The
repository's own control flow stays concrete in the functions below. -/
structure PipelineOps (M : Type) where
  /-- `cv2.imdecode`: `none` models the `None` return on malformed bytes. -/
  imdecode : List Nat → Option CVImage
  /-- `detect_product_ml` (GrabCut + KMeans body, internally caught). -/
  detect_product_ml : CVImage → Option M
  /-- `simple_crop` (Canny/contours fallback, internally caught). -/
  simple_crop : CVImage → Option M
  /-- body of `crop_to_product` when a mask is present (contours + margins). -/
  cropCore : CVImage → M → CVImage
  /-- `cv2.resize(_, (w, h), INTER_LANCZOS4)`. -/
  resize : CVImage → Nat → Nat → CVImage
  /-- `cv2.resize(mask, (1200,1200), INTER_NEAREST)`. -/
  resizeMaskNearest : M → M
  /-- body of `apply_white_bg_product_only` when a mask is present. -/
  whiteBgCore : CVImage → M → CVImage
  /-- `cv2.filter2D` with the fixed 3×3 sharpening kernel. -/
  filter2D : CVImage → CVImage
  /-- `np.where(mask_expanded == 255, sharpened, image)` blend. -/
  blendSharpen : CVImage → CVImage → M → CVImage
  /-- PIL `save(_, 'JPEG', quality=q, optimize=True)` of an image: bytes. -/
  encodeJPEG : CVImage → Nat → List Nat

/-- `crop_to_product(image, mask)` (lines 231–257): with no mask the image is
returned unchanged; with a mask the contour/margin computation runs. -/
def crop_to_product {M : Type} (ops : PipelineOps M) (img : CVImage) (mask : Option M) : CVImage :=
  match mask with
  | none => img
  | some m => ops.cropCore img m

/-- `apply_white_bg_product_only(image, mask)` (lines 260–277): skipped
entirely when the mask is `None`. -/
def apply_white_bg_product_only {M : Type} (ops : PipelineOps M) (img : CVImage)
    (mask : Option M) : CVImage :=
  match mask with
  | none => img
  | some m => ops.whiteBgCore img m

/-- `selective_sharpen(image, mask)` (lines 280–303): whole-canvas sharpening
when the mask is `None`, masked blend otherwise. -/
def selective_sharpen {M : Type} (ops : PipelineOps M) (img : CVImage)
    (mask : Option M) : CVImage :=
  match mask with
  | none => ops.filter2D img
  | some m => ops.blendSharpen (ops.filter2D img) img m

/-- The qualities `range(95, 19, -1)` tried by `aggressive_compress`:
95, 94, …, 20. -/
def compressQualities : List Nat := (List.range 76).map (fun i => 95 - i)

/-- The scanning loop of `aggressive_compress`: return the first encoding of
size ≤ `cap`, else `none` (the loop falls through). -/
def compressScan (enc : Nat → List Nat) (cap : Nat) : List Nat → Option (List Nat)
  | [] => none
  | q :: qs =>
    let data := enc q
    if data.length ≤ cap then some data else compressScan enc cap qs

/-- `aggressive_compress` (lines 306–329): scan qualities 95 down to 20 and
return the first encoding ≤ 180 KB; if none is, the variable still holds the
last (quality-20) encoding, which is returned as best effort.  `enc q`
abstracts the PIL JPEG encode of the fixed image at quality `q`. -/
def aggressive_compress (enc : Nat → List Nat) : List Nat :=
  (compressScan enc (180 * 1024) compressQualities).getD (enc 20)

/-- `PipelineMetrics`: the `metrics` dict of `optimize_image` (lines 48–59);
keys absent until a stage fills them are `Option`s, `stage_metrics` keys are
the two flags the code writes. -/
structure Metrics where
  input_size_bytes : Nat
  output_size_bytes : Option Nat
  input_dimensions : Option (Nat × Nat)
  output_dimensions : Nat × Nat
  processing_time_ms : Option ℚ
  size_reduction_percent : Option ℚ
  cost_fields : Option CostFields
  optimizer_version : String
  optimization_skipped : Option Bool
  product_detected : Option Bool
  error : Option String
deriving DecidableEq

/-- The freshly initialised metrics dict at pipeline entry. -/
def init_metrics (inputLen : Nat) : Metrics :=
  { input_size_bytes := inputLen
    output_size_bytes := none
    input_dimensions := none
    output_dimensions := (1200, 1200)
    processing_time_ms := none
    size_reduction_percent := none
    cost_fields := none
    optimizer_version := "2.0.0-ml"
    optimization_skipped := none
    product_detected := none
    error := none }

/-- The local `metrics` dict at the moment the top-level handler re-raises
(lines 130–133): the error string and the elapsed time are written into the
local dict, which is then dropped — only the wrapped message is raised. -/
def optimize_failure_state (image_bytes : List Nat) (e : String) (elapsed : ℚ) : Metrics :=
  { init_metrics image_bytes.length with
      error := some e
      processing_time_ms := some elapsed }

/-- `optimize_image` (lines 15–134).  `elapsed` abstracts the wall-clock
value `(time.time() - start_time) * 1000` observed at the exit point.  The
success value is `(bytes, metrics)`; the failure value is exactly what the
raised `Exception` carries: its message string. -/
def optimize_image {M : Type} (ops : PipelineOps M) (image_bytes : List Nat)
    (actual_weight_g : Option ℚ) (elapsed : ℚ) : Except String (List Nat × Metrics) :=
  let m0 := init_metrics image_bytes.length
  match ops.imdecode image_bytes with
  | none => .error "Image optimization failed: Failed to decode image"
  | some img =>
    let m1 := { m0 with input_dimensions := some (img.w, img.h) }
    if is_already_optimized img image_bytes.length then
      .ok (image_bytes,
        { m1 with
            optimization_skipped := some true
            output_size_bytes := some image_bytes.length
            size_reduction_percent := some 0
            cost_fields := some (predict_cost img.w img.h actual_weight_g)
            processing_time_ms := some elapsed })
    else
      let product_mask : Option M :=
        match ops.detect_product_ml img with
        | some pm => some pm
        | none => ops.simple_crop img
      let m2 := { m1 with product_detected := some product_mask.isSome }
      let cropped := crop_to_product ops img product_mask
      let cropped := if cropped.w * cropped.h = 0 then img else cropped
      let resized := ops.resize cropped 1200 1200
      let mask_resized := product_mask.map ops.resizeMaskNearest
      let bg_clean := apply_white_bg_product_only ops resized mask_resized
      let sharpened := selective_sharpen ops bg_clean mask_resized
      let optimized := aggressive_compress (ops.encodeJPEG sharpened)
      .ok (optimized,
        { m2 with
            output_size_bytes := some optimized.length
            size_reduction_percent :=
              some (((image_bytes.length : ℚ) - optimized.length) / image_bytes.length * 100)
            cost_fields := some (predict_cost 1200 1200 actual_weight_g)
            processing_time_ms := some elapsed })

/-! ## Variant generator (`shipping_variant_generator.py`) -/

/-- `VariantType` enum (lines 19–25). -/
inductive VariantType
  | hero_compact
  | standard
  | detail_focus
  | warm_minimal
  | sticker
deriving DecidableEq

/-- `VariantInfo` dataclass (lines 28–36). -/
structure VariantInfo where
  tile_index : Nat
  variant_type : VariantType
  variant_index : Nat
  global_index : Nat
  tile_name : String
  variant_label : String
deriving DecidableEq

/-- `TILE_NAMES` (lines 40–45). -/
def TILE_NAMES : List String :=
  ["Hero White Front", "3/4 Angle", "Lifestyle Scene", "Dark Luxury"]

/-- `VARIANT_LABELS` (lines 47–53). -/
def VARIANT_LABELS : VariantType → String
  | .hero_compact => "Zoom Out"
  | .standard => "Standard"
  | .detail_focus => "Cool Minimal"
  | .warm_minimal => "Warm Minimal"
  | .sticker => "Sticker Badge"

/-- `TILE_NAMES[tile_index] if tile_index < len(TILE_NAMES) else f"Tile {tile_index+1}"`
(line 423). -/
def tileName (tile_index : Nat) : String :=
  (TILE_NAMES.get? tile_index).getD ("Tile " ++ toString (tile_index + 1))

/-- Which module-level transform a variant's lambda calls, with its literal
arguments (lines 430–436 each name exactly one call). -/
inductive TransformSpec
  | copy
  | tone (warmth : Int)
  | zoomOut (factor : ℚ)
  | sticker
  | microRotate (angle : ℚ)
deriving DecidableEq

/-- Whether a transform is the micro-rotation (`micro_rotate`). -/
def TransformSpec.isMicroRotate : TransformSpec → Bool
  | .microRotate _ => true
  | _ => false

/-- A PIL image: a size plus abstract pixel content. -/
structure PILImage (α : Type) where
  w : Nat
  h : Nat
  data : α

/-- The PIL-level raster primitives of the variant generator, abstract over
pixel content `α`.  All five variant transforms, and `micro_rotate`, keep
the canvas size of their input (zoom-out pastes onto a same-size canvas,
`rotate(..., expand=False)` keeps dimensions). -/
structure PILOps (α : Type) where
  /-- `img.copy()`. -/
  copy : α → α
  /-- `adjust_background_tone(img, warmth)` (contrast, channel shift, saturation). -/
  adjust_background_tone : α → Int → α
  /-- `zoom_out(img, factor)` (shrink + centre on background-colored canvas). -/
  zoom_out : α → ℚ → α
  /-- `apply_sticker_overlay(img)` (randomized corner badges). -/
  apply_sticker_overlay : α → α
  /-- `micro_rotate(img, angle)` (≈3° rotation, background fill, same canvas). -/
  micro_rotate : α → ℚ → α
  /-- `img.resize((w, h), LANCZOS)` content. -/
  resizeData : α → Nat → Nat → α
  /-- `img.crop((x0, y0, x1, y1))` content. -/
  cropData : α → Nat → Nat → Nat → Nat → α
  /-- `img.save(buf, format="JPEG", quality=q, optimize=True)`: produced bytes. -/
  saveJPEG : α → Nat → List Nat

/-- Apply one named transform; the canvas size is preserved. -/
def applyTransform {α : Type} (ops : PILOps α) (t : TransformSpec)
    (img : PILImage α) : PILImage α :=
  match t with
  | .copy => ⟨img.w, img.h, ops.copy img.data⟩
  | .tone warmth => ⟨img.w, img.h, ops.adjust_background_tone img.data warmth⟩
  | .zoomOut factor => ⟨img.w, img.h, ops.zoom_out img.data factor⟩
  | .sticker => ⟨img.w, img.h, ops.apply_sticker_overlay img.data⟩
  | .microRotate angle => ⟨img.w, img.h, ops.micro_rotate img.data angle⟩

/-- The `variants` list of `generate_shipping_variants` (lines 430–436), in
source order: standard copy, cool tone (warmth −20), warm tone (warmth 25),
zoom-out (factor 0.80), sticker overlay. -/
def shippingVariantSpecs : List (VariantType × TransformSpec) :=
  [(.standard, .copy),
   (.detail_focus, .tone (-20)),
   (.warm_minimal, .tone 25),
   (.hero_compact, .zoomOut (4 / 5)),
   (.sticker, .sticker)]

/-- `generate_shipping_variants(tile_img, tile_index)` (lines 413–453): each
variant is transformed independently from the same `tile` and paired with
its `VariantInfo`; `global_index = tile_index * 5 + variant_idx`. -/
def generate_shipping_variants {α : Type} (ops : PILOps α) (tile : PILImage α)
    (tile_index : Nat) : List (PILImage α × VariantInfo) :=
  shippingVariantSpecs.enum.map (fun p =>
    (applyTransform ops p.2.2 tile,
     { tile_index := tile_index
       variant_type := p.2.1
       variant_index := p.1
       global_index := tile_index * 5 + p.1
       tile_name := tileName tile_index
       variant_label := VARIANT_LABELS p.2.1 }))

/-- The tile loop of `generate_all_shipping_variants` run on the (possibly
resized) 1024×1024 image: `cols, rows = 2, 2`, `tile_w = img.w // 2`,
row-major tiles, five variants per tile, each JPEG-encoded at quality 92. -/
def allVariantsFrom {α : Type} (ops : PILOps α) (img : PILImage α) :
    List (List Nat × VariantInfo) :=
  let tile_w := img.w / 2
  let tile_h := img.h / 2
  (List.range (2 * 2)).flatMap (fun tile_idx =>
    let row := tile_idx / 2
    let col := tile_idx % 2
    let x0 := col * tile_w
    let y0 := row * tile_h
    let tile : PILImage α :=
      ⟨tile_w, tile_h, ops.cropData img.data x0 y0 (x0 + tile_w) (y0 + tile_h)⟩
    (generate_shipping_variants ops tile tile_idx).map (fun v =>
      (ops.saveJPEG v.1.data 92, v.2)))

/-- `generate_all_shipping_variants(grid_image_bytes)` (lines 456–492) on the
decoded grid image: resize to 1024×1024 unless already that size, then run
the hard-coded 2×2 tile loop. -/
def generate_all_shipping_variants {α : Type} (ops : PILOps α) (grid : PILImage α) :
    List (List Nat × VariantInfo) :=
  let img : PILImage α :=
    if grid.w = 1024 ∧ grid.h = 1024 then grid
    else ⟨1024, 1024, ops.resizeData grid.data 1024 1024⟩
  allVariantsFrom ops img

/-- The qualities `(95, 93, 92, 90, 88, 86, 84, 82, 80)` tried by
`encode_variant_jpeg` (line 517). -/
def variantQualities : List Nat := [95, 93, 92, 90, 88, 86, 84, 82, 80]

/-- The quality loop of `encode_variant_jpeg` (lines 517–525): an encoding
inside the window is returned at once; an encoding below the minimum is also
returned at once ("can't make it bigger"); an encoding above the maximum is
discarded and the next quality tried.  Encodings are represented by their
byte size `sz q`. -/
def encodeScan (sz : Nat → Nat) (minB maxB : Nat) : List Nat → Option Nat
  | [] => none
  | q :: qs =>
    let n := sz q
    if minB ≤ n ∧ n ≤ maxB then some n
    else if n < minB then some n
    else encodeScan sz minB maxB qs

/-- `encode_variant_jpeg` (lines 495–530): run the quality loop; if every
tried quality overshoots the maximum, fall back to a fresh quality-85 save
(`szFallback` — a distinct, non-progressive encode). -/
def encode_variant_jpeg (sz : Nat → Nat) (szFallback minB maxB : Nat) : Nat :=
  (encodeScan sz minB maxB variantQualities).getD szFallback

/-! ## C1: the already-optimized gate -/

/-- `countP` over a constant list. -/
theorem countP_replicate (p : Nat → Bool) (a : Nat) :
    ∀ n, (List.replicate n a).countP p = if p a then n else 0 := by
  intro n
  induction n with
  | zero => simp
  | succ k ih =>
    rw [List.replicate_succ, List.countP_cons, ih]
    by_cases h : p a <;> simp [h]

/-- A 1200×1200 image whose bright-pixel fraction is exactly 0.60:
864000 pixels of luma 255 and 576000 pixels of luma 0. -/
def img60 : CVImage := ⟨1200, 1200, List.replicate 864000 255 ++ List.replicate 576000 0⟩

theorem img60_count : img60.gray.countP (fun p => decide (240 < p)) = 864000 := by
  show (List.replicate 864000 255 ++ List.replicate 576000 0).countP
      (fun p => decide (240 < p)) = 864000
  rw [List.countP_append, countP_replicate, countP_replicate]
  norm_num

theorem img60_length : img60.gray.length = 1440000 := by
  show (List.replicate 864000 255 ++ List.replicate 576000 0).length = 1440000
  rw [List.length_append, List.length_replicate, List.length_replicate]

/-- C1 counterexample: `img60` (1200×1200, byte length 1000 < 200 KB, bright
fraction exactly 0.60 ≥ 0.60) satisfies every condition of the claim's gate,
yet `is_already_optimized` returns `false`: the code requires the fraction to
be strictly greater than 0.6 (`white_ratio > 0.6`), not ≥ 0.60. -/
theorem gate_boundary_counterexample :
    is_already_optimized img60 1000 = false ∧
    1000 < 200 * 1024 ∧ img60.h = 1200 ∧ img60.w = 1200 ∧
    3 * img60.gray.length ≤ 5 * img60.gray.countP (fun p => decide (240 < p)) := by
  refine ⟨?_, by norm_num, rfl, rfl, ?_⟩
  · simp only [is_already_optimized]
    rw [if_pos ⟨by norm_num, rfl, rfl⟩, img60_count, img60_length]
    decide
  · rw [img60_count, img60_length]

/-- C1 amended: the gate returns `true` exactly when the byte length is below
200 KB, the canvas is exactly 1200×1200, and the bright-pixel fraction is
STRICTLY GREATER than 0.6 (`5 * count > 3 * size`); and whenever the gate is
true, `optimize_image` returns the original bytes with
`size_reduction_percent = 0` and `stage_metrics.optimization_skipped = true`. -/
theorem gate_iff_and_skip {M : Type} (ops : PipelineOps M) (image_bytes : List Nat)
    (img : CVImage) (a : Option ℚ) (t : ℚ)
    (hdec : ops.imdecode image_bytes = some img)
    (hgate : is_already_optimized img image_bytes.length = true) :
    (∀ (img' : CVImage) (byteLen : Nat),
        is_already_optimized img' byteLen = true ↔
          (byteLen < 200 * 1024 ∧ img'.h = 1200 ∧ img'.w = 1200 ∧
           3 * img'.gray.length < 5 * img'.gray.countP (fun p => decide (240 < p)))) ∧
    optimize_image ops image_bytes a t =
      .ok (image_bytes,
        { init_metrics image_bytes.length with
            input_dimensions := some (img.w, img.h)
            optimization_skipped := some true
            output_size_bytes := some image_bytes.length
            size_reduction_percent := some 0
            cost_fields := some (predict_cost img.w img.h a)
            processing_time_ms := some t }) := by
  constructor
  · intro img' byteLen
    by_cases hcond : byteLen < 200 * 1024 ∧ img'.h = 1200 ∧ img'.w = 1200
    · simp only [is_already_optimized, if_pos hcond, decide_eq_true_eq]
      exact ⟨fun h => ⟨hcond.1, hcond.2.1, hcond.2.2, h⟩, fun h => h.2.2.2⟩
    · simp only [is_already_optimized, if_neg hcond, Bool.false_eq_true, false_iff]
      exact fun h => hcond ⟨h.1, h.2.1, h.2.2.1⟩
  · simp only [optimize_image, hdec, hgate]
    simp

/-- A constant decoder yielding the all-bright canonical image. -/
def imgBrightW : CVImage := ⟨1200, 1200, List.replicate 1440000 255⟩

/-- Trivial pipeline primitives whose decoder always returns `imgBrightW`. -/
def gateOpsW : PipelineOps Unit :=
  { imdecode := fun _ => some imgBrightW
    detect_product_ml := fun _ => none
    simple_crop := fun _ => none
    cropCore := fun i _ => i
    resize := fun i _ _ => i
    resizeMaskNearest := fun m => m
    whiteBgCore := fun i _ => i
    filter2D := fun i => i
    blendSharpen := fun s _ _ => s
    encodeJPEG := fun _ _ => [] }

/-- Concrete 1000-byte input for the gate witness. -/
def bytesW : List Nat := List.replicate 1000 7

theorem gate_iff_and_skip_witness :
    optimize_image gateOpsW bytesW none 5 =
      .ok (bytesW,
        { init_metrics bytesW.length with
            input_dimensions := some (imgBrightW.w, imgBrightW.h)
            optimization_skipped := some true
            output_size_bytes := some bytesW.length
            size_reduction_percent := some 0
            cost_fields := some (predict_cost imgBrightW.w imgBrightW.h none)
            processing_time_ms := some 5 }) := by
  have hgate : is_already_optimized imgBrightW bytesW.length = true := by
    have hlen : bytesW.length = 1000 := by
      show (List.replicate 1000 7).length = 1000
      rw [List.length_replicate]
    have hc : imgBrightW.gray.countP (fun p => decide (240 < p)) = 1440000 := by
      show (List.replicate 1440000 255).countP (fun p => decide (240 < p)) = 1440000
      rw [countP_replicate]
      norm_num
    have hl : imgBrightW.gray.length = 1440000 := by
      show (List.replicate 1440000 255).length = 1440000
      rw [List.length_replicate]
    rw [hlen]
    simp only [is_already_optimized]
    rw [if_pos ⟨by norm_num, rfl, rfl⟩, hc, hl]
    decide
  exact (gate_iff_and_skip gateOpsW bytesW imgBrightW none 5 rfl hgate).2

/-! ## C6: what the re-raised pipeline error carries -/

/-- Pipeline primitives whose decoder always fails (malformed input bytes). -/
def failOps : PipelineOps Unit :=
  { imdecode := fun _ => none
    detect_product_ml := fun _ => none
    simple_crop := fun _ => none
    cropCore := fun i _ => i
    resize := fun i _ _ => i
    resizeMaskNearest := fun m => m
    whiteBgCore := fun i _ => i
    filter2D := fun i => i
    blendSharpen := fun s _ _ => s
    encodeJPEG := fun _ _ => [] }

/-- C6 counterexample: two failing inputs whose partially filled metrics
differ (input sizes 1 vs 3 bytes) produce the very same raised error value —
the `Exception` carries only the wrapped message string, so no caller can
recover the partial `PipelineMetrics` from the error it receives. -/
theorem error_carries_no_metrics_counterexample :
    optimize_image failOps [0] none 7 =
      .error "Image optimization failed: Failed to decode image" ∧
    optimize_image failOps [0, 1, 2] none 7 =
      .error "Image optimization failed: Failed to decode image" ∧
    optimize_failure_state [0] "Failed to decode image" 7 ≠
      optimize_failure_state [0, 1, 2] "Failed to decode image" 7 ∧
    ¬ ∃ recover : String → Metrics,
        ∀ (bs : List Nat) (t : ℚ) (e : String),
          optimize_image failOps bs none t = .error e →
          recover e = optimize_failure_state bs "Failed to decode image" t := by
  refine ⟨rfl, rfl, ?_, ?_⟩
  · intro h
    have h1 := congrArg Metrics.input_size_bytes h
    simp [optimize_failure_state, init_metrics] at h1
  · rintro ⟨recover, hrec⟩
    have h1 := hrec [0] 7 "Image optimization failed: Failed to decode image" rfl
    have h2 := hrec [0, 1, 2] 7 "Image optimization failed: Failed to decode image" rfl
    have h3 := congrArg Metrics.input_size_bytes (h1.symm.trans h2)
    simp [optimize_failure_state, init_metrics] at h3

/-- C6 amended: on a failing input the top-level handler writes the error
string and the elapsed time into the LOCAL metrics dict and then re-raises a
single wrapped error that carries only the message
`"Image optimization failed: {e}"`; the partial metrics (error, elapsed time,
input size) exist at raise time but are not attached to the raised error. -/
theorem failure_wraps_message_only {M : Type} (ops : PipelineOps M) (bs : List Nat)
    (a : Option ℚ) (t : ℚ) (hdec : ops.imdecode bs = none) :
    optimize_image ops bs a t =
      .error "Image optimization failed: Failed to decode image" ∧
    (optimize_failure_state bs "Failed to decode image" t).error =
      some "Failed to decode image" ∧
    (optimize_failure_state bs "Failed to decode image" t).processing_time_ms = some t ∧
    (optimize_failure_state bs "Failed to decode image" t).input_size_bytes = bs.length := by
  refine ⟨?_, rfl, rfl, rfl⟩
  simp [optimize_image, hdec]

theorem failure_wraps_message_only_witness :
    optimize_image failOps [5] none 3 =
      .error "Image optimization failed: Failed to decode image" :=
  (failure_wraps_message_only failOps [5] none 3 rfl).1

/-! ## C7: segmentation returning None is never fatal -/

/-- C7: when both segmentation strategies return `None` and the gate does not
fire, the pipeline does not raise: the crop stage returns the image
unchanged, the white-background step is skipped, sharpening is applied to the
entire canvas, and `optimize_image` returns a valid `(bytes, metrics)`
result built from the whole-canvas path. -/
theorem segmentation_none_fallback {M : Type} (ops : PipelineOps M) (bs : List Nat)
    (img : CVImage) (a : Option ℚ) (t : ℚ)
    (hdec : ops.imdecode bs = some img)
    (hml : ops.detect_product_ml img = none)
    (hsc : ops.simple_crop img = none)
    (hgate : is_already_optimized img bs.length = false) :
    crop_to_product ops img none = img ∧
    (∀ x : CVImage, apply_white_bg_product_only ops x none = x) ∧
    (∀ x : CVImage, selective_sharpen ops x none = ops.filter2D x) ∧
    optimize_image ops bs a t =
      .ok (aggressive_compress (ops.encodeJPEG (ops.filter2D (ops.resize img 1200 1200))),
        { init_metrics bs.length with
            input_dimensions := some (img.w, img.h)
            product_detected := some false
            output_size_bytes :=
              some (aggressive_compress
                (ops.encodeJPEG (ops.filter2D (ops.resize img 1200 1200)))).length
            size_reduction_percent :=
              some (((bs.length : ℚ) -
                  (aggressive_compress
                    (ops.encodeJPEG (ops.filter2D (ops.resize img 1200 1200)))).length) /
                bs.length * 100)
            cost_fields := some (predict_cost 1200 1200 a)
            processing_time_ms := some t }) := by
  refine ⟨rfl, fun x => rfl, fun x => rfl, ?_⟩
  simp only [optimize_image, hdec, hml, hsc, hgate]
  simp [crop_to_product, apply_white_bg_product_only, selective_sharpen]

/-- A small 2×2 decoded image (gate cannot fire: wrong canvas size). -/
def imgSmall : CVImage := ⟨2, 2, [0, 0, 0, 0]⟩

/-- Pipeline primitives that decode to `imgSmall` and find no mask. -/
def noMaskOps : PipelineOps Unit :=
  { failOps with imdecode := fun _ => some imgSmall }

theorem segmentation_none_fallback_witness :
    optimize_image noMaskOps [9] none 3 =
      .ok (aggressive_compress
            (noMaskOps.encodeJPEG (noMaskOps.filter2D (noMaskOps.resize imgSmall 1200 1200))),
        { init_metrics ([9] : List Nat).length with
            input_dimensions := some (imgSmall.w, imgSmall.h)
            product_detected := some false
            output_size_bytes :=
              some (aggressive_compress
                (noMaskOps.encodeJPEG
                  (noMaskOps.filter2D (noMaskOps.resize imgSmall 1200 1200)))).length
            size_reduction_percent :=
              some (((([9] : List Nat).length : ℚ) -
                  (aggressive_compress
                    (noMaskOps.encodeJPEG
                      (noMaskOps.filter2D (noMaskOps.resize imgSmall 1200 1200)))).length) /
                ([9] : List Nat).length * 100)
            cost_fields := some (predict_cost 1200 1200 none)
            processing_time_ms := some 3 }) :=
  (segmentation_none_fallback noMaskOps [9] imgSmall none 3 rfl rfl rfl (by decide)).2.2.2

/-! ## C3: the 180 KB byte-budget property of `aggressive_compress` -/

theorem mem_compressQualities {q : Nat} (h1 : 20 ≤ q) (h2 : q ≤ 95) :
    q ∈ compressQualities := by
  simp only [compressQualities, List.mem_map, List.mem_range]
  exact ⟨95 - q, by omega, by omega⟩

theorem compressScan_le (enc : Nat → List Nat) (cap : Nat) (l : List Nat)
    (h : ∃ q ∈ l, (enc q).length ≤ cap) (d : List Nat) :
    ((compressScan enc cap l).getD d).length ≤ cap := by
  induction l with
  | nil => simp at h
  | cons q qs ih =>
    obtain ⟨q', hq', hle⟩ := h
    by_cases hq : (enc q).length ≤ cap
    · simp [compressScan, hq]
    · have hqs : q' ∈ qs := by
        rcases List.mem_cons.mp hq' with h1 | h1
        · subst h1; exact absurd hle hq
        · exact h1
      simp only [compressScan, if_neg hq]
      exact ih ⟨q', hqs, hle⟩

/-- C3: if any tried quality in [20, 95] yields an encoding whose size is
≤ 180 KB, then the bytes `aggressive_compress` returns have size ≤ 180 KB
(the descending scan stops at the first quality below the ceiling). -/
theorem compress_budget (enc : Nat → List Nat)
    (h : ∃ q, 20 ≤ q ∧ q ≤ 95 ∧ (enc q).length ≤ 180 * 1024) :
    (aggressive_compress enc).length ≤ 180 * 1024 := by
  obtain ⟨q, h1, h2, h3⟩ := h
  exact compressScan_le enc _ _ ⟨q, mem_compressQualities h1 h2, h3⟩ _

theorem compress_budget_witness :
    (aggressive_compress (fun _ => [])).length ≤ 180 * 1024 :=
  compress_budget (fun _ => []) ⟨95, by norm_num, by norm_num, by simp⟩

/-! ## C2: the size-targeting behavior of `encode_variant_jpeg` -/

theorem encodeScan_all_over (sz : Nat → Nat) (minB maxB : Nat) (hmm : minB ≤ maxB)
    (l : List Nat) (h : ∀ q ∈ l, maxB < sz q) :
    encodeScan sz minB maxB l = none := by
  induction l with
  | nil => rfl
  | cons q qs ih =>
    have hq := h q (List.mem_cons_self q qs)
    simp only [encodeScan]
    rw [if_neg (by omega), if_neg (by omega)]
    exact ih (fun x hx => h x (List.mem_cons_of_mem _ hx))

theorem encodeScan_finds (sz : Nat → Nat) (minB maxB : Nat)
    (hmono : ∀ a b : Nat, a ≤ b → sz a ≤ sz b) (hmm : minB ≤ maxB)
    (l : List Nat) (hpw : l.Pairwise (fun a b => b ≤ a))
    (hex : ∃ q ∈ l, sz q ≤ maxB) :
    ∃ n, encodeScan sz minB maxB l = some n ∧ n ≤ maxB ∧
      (∀ q ∈ l, sz q ≤ maxB → sz q ≤ n) ∧
      ((∃ q ∈ l, minB ≤ sz q ∧ sz q ≤ maxB) → minB ≤ n) := by
  induction l with
  | nil => simp at hex
  | cons q qs ih =>
    have hhead : ∀ b ∈ qs, b ≤ q := (List.pairwise_cons.mp hpw).1
    have hpw' : qs.Pairwise (fun a b => b ≤ a) := (List.pairwise_cons.mp hpw).2
    by_cases h1 : minB ≤ sz q ∧ sz q ≤ maxB
    · refine ⟨sz q, by simp [encodeScan, h1], h1.2, ?_, fun _ => h1.1⟩
      intro q' hq' hle
      rcases List.mem_cons.mp hq' with he | he
      · subst he; exact le_refl _
      · exact hmono q' q (hhead q' he)
    · by_cases h2 : sz q < minB
      · refine ⟨sz q, ?_, by omega, ?_, ?_⟩
        · simp only [encodeScan]
          rw [if_neg h1, if_pos h2]
        · intro q' hq' hle
          rcases List.mem_cons.mp hq' with he | he
          · subst he; exact le_refl _
          · exact hmono q' q (hhead q' he)
        · rintro ⟨q', hq', hw1, hw2⟩
          rcases List.mem_cons.mp hq' with he | he
          · subst he; omega
          · have := hmono q' q (hhead q' he)
            omega
      · have hover : maxB < sz q := by omega
        have hex' : ∃ x ∈ qs, sz x ≤ maxB := by
          obtain ⟨q', hq', hle⟩ := hex
          rcases List.mem_cons.mp hq' with he | he
          · subst he; omega
          · exact ⟨q', he, hle⟩
        obtain ⟨n, hscan, hnmax, hlarge, hwin⟩ := ih hpw' hex'
        refine ⟨n, ?_, hnmax, ?_, ?_⟩
        · simp only [encodeScan]
          rw [if_neg h1, if_neg h2]
          exact hscan
        · intro q' hq' hle
          rcases List.mem_cons.mp hq' with he | he
          · subst he; omega
          · exact hlarge q' he hle
        · rintro ⟨q', hq', hw1, hw2⟩
          rcases List.mem_cons.mp hq' with he | he
          · subst he; omega
          · exact hwin ⟨q', he, hw1, hw2⟩

/-- C2 amended: `encode_variant_jpeg` scans only the qualities
95, 93, 92, 90, 88, 86, 84, 82, 80 (not the range 20–95) and returns the
first encoding of size ≤ max (an encoding below min is returned at once);
with encoded size non-decreasing in quality this yields an in-window
encoding whenever a tried quality lands in the window, and otherwise the
largest tried encoding ≤ max; but when every tried quality overshoots max,
it returns a fresh best-effort quality-85 encoding (`szFallback`) instead of
the claimed "smallest encoding ≥ min". -/
theorem encode_variant_window (sz : Nat → Nat) (szFallback minB maxB : Nat)
    (hmono : ∀ a b : Nat, a ≤ b → sz a ≤ sz b) (hmm : minB ≤ maxB) :
    ((∃ q ∈ variantQualities, minB ≤ sz q ∧ sz q ≤ maxB) →
       minB ≤ encode_variant_jpeg sz szFallback minB maxB ∧
       encode_variant_jpeg sz szFallback minB maxB ≤ maxB) ∧
    ((∃ q ∈ variantQualities, sz q ≤ maxB) →
       encode_variant_jpeg sz szFallback minB maxB ≤ maxB ∧
       ∀ q ∈ variantQualities, sz q ≤ maxB →
         sz q ≤ encode_variant_jpeg sz szFallback minB maxB) ∧
    ((∀ q ∈ variantQualities, maxB < sz q) →
       encode_variant_jpeg sz szFallback minB maxB = szFallback) := by
  have hpw : variantQualities.Pairwise (fun a b => b ≤ a) := by decide
  refine ⟨?_, ?_, ?_⟩
  · rintro ⟨q, hq, hw1, hw2⟩
    obtain ⟨n, hscan, hnmax, _, hwin⟩ :=
      encodeScan_finds sz minB maxB hmono hmm variantQualities hpw ⟨q, hq, hw2⟩
    have : encode_variant_jpeg sz szFallback minB maxB = n := by
      simp [encode_variant_jpeg, hscan]
    rw [this]
    exact ⟨hwin ⟨q, hq, hw1, hw2⟩, hnmax⟩
  · rintro ⟨q, hq, hle⟩
    obtain ⟨n, hscan, hnmax, hlarge, _⟩ :=
      encodeScan_finds sz minB maxB hmono hmm variantQualities hpw ⟨q, hq, hle⟩
    have : encode_variant_jpeg sz szFallback minB maxB = n := by
      simp [encode_variant_jpeg, hscan]
    rw [this]
    exact ⟨hnmax, hlarge⟩
  · intro hall
    have := encodeScan_all_over sz minB maxB hmm variantQualities hall
    simp [encode_variant_jpeg, this]

theorem encode_variant_window_witness :
    102400 ≤ encode_variant_jpeg (fun _ => 150 * 1024) 0 102400 204800 ∧
    encode_variant_jpeg (fun _ => 150 * 1024) 0 102400 204800 ≤ 204800 :=
  (encode_variant_window (fun _ => 150 * 1024) 0 102400 204800
      (fun _ _ _ => le_refl _) (by norm_num)).1
    ⟨95, by decide, by norm_num, by norm_num⟩

/-- A monotone size profile on which every tried quality overshoots the
200 KB maximum: `sz q = 204801 + 100 * q`. -/
def szAllOver : Nat → Nat := fun q => 204801 + 100 * q

/-- C2 counterexample: with window [100 KB, 200 KB] and every encoding over
the whole claimed quality range [20, 95] strictly above the maximum (sizes
monotone in quality), the claim demands the smallest encoding ≥ min — the
quality-20 encoding of size 206801 — but `encode_variant_jpeg` returns the
fresh fallback encoding (here of size 400000), which is none of the searched
encodings at all. -/
theorem encode_variant_fallback_counterexample :
    encode_variant_jpeg szAllOver 400000 102400 204800 = 400000 ∧
    (∀ a b : Nat, a ≤ b → szAllOver a ≤ szAllOver b) ∧
    (∀ q : Nat, 20 ≤ q → q ≤ 95 → 102400 ≤ szAllOver q ∧ ¬ szAllOver q ≤ 204800) ∧
    szAllOver 20 = 206801 ∧
    (∀ q : Nat, 20 ≤ q → q ≤ 95 → szAllOver 20 ≤ szAllOver q) ∧
    (∀ q : Nat, q ≤ 95 → szAllOver q < 400000) ∧
    (400000 : Nat) ≠ 206801 := by
  refine ⟨by decide, ?_, ?_, rfl, ?_, ?_, by norm_num⟩
  · intro a b hab
    simp only [szAllOver]
    omega
  · intro q hq1 hq2
    simp only [szAllOver]
    omega
  · intro q hq1 hq2
    simp only [szAllOver]
    omega
  · intro q hq
    simp only [szAllOver]
    omega

/-! ## C4 and C5: the variant batch -/

/-- Trivial PIL primitives over unit pixel content. -/
def unitPILOps : PILOps Unit :=
  { copy := fun d => d
    adjust_background_tone := fun d _ => d
    zoom_out := fun d _ => d
    apply_sticker_overlay := fun d => d
    micro_rotate := fun d _ => d
    resizeData := fun d _ _ => d
    cropData := fun d _ _ _ _ => d
    saveJPEG := fun _ _ => [] }

/-- A concrete 512×512 tile. -/
def unitTile : PILImage Unit := ⟨512, 512, ()⟩

/-- C4 counterexample: the five variants actually produced for a tile are
standard copy, cool tone, warm tone, zoom-out and sticker — there is no
micro-rotation among them (`micro_rotate` exists in the module but none of
the five transform lambdas calls it). -/
theorem five_variants_no_rotation_counterexample :
    ((generate_shipping_variants unitPILOps unitTile 0).map (fun v => v.2.variant_type) =
      [.standard, .detail_focus, .warm_minimal, .hero_compact, .sticker]) ∧
    (generate_shipping_variants unitPILOps unitTile 0).length = 5 ∧
    shippingVariantSpecs.all (fun p => ! p.2.isMicroRotate) = true := by
  refine ⟨rfl, rfl, rfl⟩

/-- C4 amended: for every tile the generator produces exactly five variants,
each independently derived from the same source tile (each transform is
applied to `tile` itself, never to another variant's output), and the five
kinds are: standard passthrough, cool tone, warm tone, zoom-out (factor
0.80) onto a background-colored canvas, and sticker overlay; no variant
applies the micro-rotation. -/
theorem five_variants_amended {α : Type} (ops : PILOps α) (tile : PILImage α) (ti : Nat) :
    (generate_shipping_variants ops tile ti).length = 5 ∧
    ((generate_shipping_variants ops tile ti).map (fun v => v.2.variant_type) =
      [.standard, .detail_focus, .warm_minimal, .hero_compact, .sticker]) ∧
    ((generate_shipping_variants ops tile ti).map (fun v => v.1) =
      shippingVariantSpecs.map (fun p => applyTransform ops p.2 tile)) ∧
    ((generate_shipping_variants ops tile ti).map (fun v => v.2.variant_index) =
      [0, 1, 2, 3, 4]) ∧
    ((generate_shipping_variants ops tile ti).map (fun v => v.2.global_index) =
      [ti * 5, ti * 5 + 1, ti * 5 + 2, ti * 5 + 3, ti * 5 + 4]) ∧
    (shippingVariantSpecs.map (fun p => p.2)).all (fun t' => ! t'.isMicroRotate) = true := by
  exact ⟨rfl, rfl, rfl, rfl, rfl, rfl⟩

/-- A 1024×1536 grid — the canvas shape of the upstream 2×3 (6-tile) grid. -/
def grid2x3 : PILImage Unit := ⟨1024, 1536, ()⟩

/-- C5 counterexample: feeding the generator a 2×3 grid image still yields
exactly 20 attempted variants with global indices [0, 19] — never 30 — since
`cols, rows = 2, 2` is hard-coded and every input is resized to 1024×1024. -/
theorem grid_2x3_twenty_counterexample :
    (generate_all_shipping_variants unitPILOps grid2x3).length = 20 ∧
    (generate_all_shipping_variants unitPILOps grid2x3).length ≠ 30 ∧
    ((generate_all_shipping_variants unitPILOps grid2x3).map (fun v => v.2.global_index) =
      List.range 20) := by
  have h : (generate_all_shipping_variants unitPILOps grid2x3).length = 20 := rfl
  refine ⟨h, by rw [h]; norm_num, rfl⟩

/-- C5 amended: for EVERY grid input (any size, including a 2×3 grid), the
generator resizes to 1024×1024, splits into a hard-coded 2×2 layout and
attempts exactly 20 variants; the emitted `global_index` values are exactly
0…19 (unique), and each equals `tile_index * 5 + variant_index`. -/
theorem variants_always_twenty {α : Type} (ops : PILOps α) (grid : PILImage α) :
    (generate_all_shipping_variants ops grid).length = 20 ∧
    ((generate_all_shipping_variants ops grid).map (fun v => v.2.global_index) =
      List.range 20) ∧
    ((generate_all_shipping_variants ops grid).map (fun v => v.2.global_index) =
      (generate_all_shipping_variants ops grid).map
        (fun v => v.2.tile_index * 5 + v.2.variant_index)) ∧
    ((generate_all_shipping_variants ops grid).map (fun v => v.2.global_index)).Nodup ∧
    (∀ v ∈ generate_all_shipping_variants ops grid, v.2.global_index < 20) := by
  have h1 : ∀ img : PILImage α, (allVariantsFrom ops img).length = 20 := fun _ => rfl
  have h2 : ∀ img : PILImage α,
      (allVariantsFrom ops img).map (fun v => v.2.global_index) = List.range 20 :=
    fun _ => rfl
  have h3 : ∀ img : PILImage α,
      (allVariantsFrom ops img).map (fun v => v.2.global_index) =
        (allVariantsFrom ops img).map
          (fun v => v.2.tile_index * 5 + v.2.variant_index) :=
    fun _ => rfl
  simp only [generate_all_shipping_variants]
  refine ⟨h1 _, h2 _, h3 _, ?_, ?_⟩
  · rw [h2 _]
    exact List.nodup_range 20
  · intro v hv
    have : v.2.global_index ∈
        (allVariantsFrom ops _).map (fun v' => v'.2.global_index) :=
      List.mem_map_of_mem _ hv
    rw [h2 _] at this
    exact List.mem_range.mp this

/-! ## Theorems for C8, C9, C10 -/

/-- Python's `max(a or v, v)` agrees with the spec's `max(a ?? v, v)` for a
non-negative floor `v`: the only divergence of `or`-coalescing from
`None`-coalescing is at `a = 0`, where both sides collapse to `v`. -/
theorem pyOrWeight_max (a : Option ℚ) (v : ℚ) (hv : 0 ≤ v) :
    max (pyOrWeight a v) v = max (a.getD v) v := by
  cases a with
  | none => simp [pyOrWeight]
  | some x =>
    by_cases hx : x = 0
    · subst hx
      simp [pyOrWeight, max_eq_right hv]
    · simp [pyOrWeight, hx]

/-- C8: for every pixel size and every `actual_weight_g` (including `None`,
`0` and values below volumetric), the returned `billable_weight_g` equals
`max(actual_weight_g ?? volumetric_weight_g, volumetric_weight_g)`, and in
particular `billable_weight_g ≥ volumetric_weight_g` always holds. -/
theorem billable_weight_floor (width height : Nat) (a : Option ℚ) :
    (predict_cost width height a).billable_weight_g =
      max (a.getD ((predict_cost width height a).volumetric_weight_g))
        ((predict_cost width height a).volumetric_weight_g) ∧
    (predict_cost width height a).volumetric_weight_g ≤
      (predict_cost width height a).billable_weight_g := by
  constructor
  · simp only [predict_cost]
    exact pyOrWeight_max a _ (by positivity)
  · simp only [predict_cost]
    exact le_max_right _ _

/-- C9 counterexample: a 1×1 image does NOT get the neutral default fill;
the sampler returns the single pixel's own color (here black, and `(7,8,9)`
for a second image), which differs from the white default `(255,255,255)`. -/
theorem background_sampler_1x1_counterexample :
    detect_dominant_background_color black1x1 = (0, 0, 0) ∧
    detect_dominant_background_color oddPixel1x1 = (7, 8, 9) ∧
    detect_dominant_background_color black1x1 ≠ (255, 255, 255) := by
  refine ⟨by decide, by decide, by decide⟩

/-- C9 amended: for a degenerate 1×1 input, the background sampler samples
the single pixel four times and returns that pixel's own color; the neutral
white default is reserved for the (unreachable for positive dimensions)
case of an empty edge sample. -/
theorem background_sampler_1x1 (c : Nat × Nat × Nat) :
    detect_dominant_background_color ⟨1, 1, fun _ _ => c⟩ = c := by
  obtain ⟨r, g, b⟩ := c
  simp only [detect_dominant_background_color, rangeStep]
  norm_num [List.flatMap]
  omega

/-- C10: passing `actual_weight_g = 0` (or `None`) is treated as an absent
declared weight: the billable weight collapses to the volumetric weight and
the returned record's `actual_weight_g` field is the volumetric weight. -/
theorem predict_cost_zero_weight (width height : Nat) :
    (predict_cost width height (some 0)).billable_weight_g =
      (predict_cost width height (some 0)).volumetric_weight_g ∧
    (predict_cost width height (some 0)).actual_weight_g =
      (predict_cost width height (some 0)).volumetric_weight_g ∧
    (predict_cost width height none).billable_weight_g =
      (predict_cost width height none).volumetric_weight_g ∧
    (predict_cost width height none).actual_weight_g =
      (predict_cost width height none).volumetric_weight_g := by
  refine ⟨?_, ?_, ?_, ?_⟩ <;> simp [predict_cost, pyOrWeight]

end MeeShip
